import Mathlib

/-!
Shallow embedding of the Allium daemon core (`src/alliumd/src/alliumd.rs`).

The daemon supervises a "main" child process (launcher or game) and an
optional "menu" overlay child.  We embed its state record `AlliumD`, the
key-event handler `handle_key_event`, the event-loop reactions to main/menu
exits, the clamped volume/brightness mutators, settings load, and the
pid-resolving `signal` helper.  Side effects (signals delivered, processes
spawned or awaited, file writes) are recorded in an `Effect` trace list.

Machine integers are modelled as `Int` with explicit two's-complement
wrapping at the width where the source computes (i32 for volume, i8 for the
brightness arithmetic); Rust's release-mode overflow semantics (wrap) is
used.  The environment (existence of the GameInfo file, the freshly spawned
menu child) is passed explicitly in `Env`.
-/

/-- Keys of the `Key` enum that the handler inspects, plus representatives
for the remaining keys (which all fall into the catch-all match arm). -/
inductive Key where
  | Menu | VolDown | VolUp | Power
  | Up | Down | Left | Right | A | B | X | Y | Start | Select | L | R | Unknown
  deriving DecidableEq, Repr

/-- The `KeyEvent` enum: `Pressed`, `Released`, `Autorepeat`. -/
inductive KeyEvent where
  | Pressed (k : Key)
  | Released (k : Key)
  | Autorepeat (k : Key)
  deriving DecidableEq, Repr

/-- POSIX signals the daemon sends to children. -/
inductive Signal where
  | SIGSTOP | SIGCONT | SIGTERM
  deriving DecidableEq, Repr

/-- A child-process handle (`tokio::process::Child`): `id` is the OS pid if
it can still be resolved (`Child::id` returns `Option<u32>`), and `exited`
records whether the process has terminated (so that the event loop's
`menu.wait()` select branch fires). -/
structure Child where
  id : Option Nat
  exited : Bool
  deriving DecidableEq, Repr

/-- Observable side effects of the daemon, in program order. -/
inductive Effect where
  | sendSignal (pid : Nat) (sig : Signal)
  | wait (id : Option Nat)
  | spawnMenu
  | spawnMain
  | saveState
  | addPlayTime
  | deleteGameInfo
  | spawnSync
  | execPoweroff
  | setVolume (v : Int)
  | setBrightness (b : Int)
  deriving DecidableEq, Repr

/-- The daemon state `AlliumD` (serde skips every field except `volume` and
`brightness`). -/
structure AlliumD where
  main : Child
  menu : Option Child
  is_menu_pressed : Bool
  is_menu_pressed_alone : Bool
  is_terminating : Bool
  volume : Int
  brightness : Int
  deriving DecidableEq, Repr

/-- Environment of one handler invocation: whether the GameInfo file exists
(`is_ingame`, read from `ALLIUM_GAME_INFO`) and the child handle a fresh
spawn of the menu binary would return. -/
structure Env where
  ingame : Bool
  newMenu : Child
  deriving DecidableEq, Repr

/-- Rust `clamp(lo, hi)` on integers. -/
def clampI (x lo hi : Int) : Int :=
  if x < lo then lo else if hi < x then hi else x

/-- Two's-complement wrap to i32. -/
def wrap32 (x : Int) : Int :=
  (x + 2147483648) % 4294967296 - 2147483648

/-- Two's-complement wrap to i8 (`as i8` casts and wrapping i8 addition). -/
def wrap8 (x : Int) : Int :=
  (x + 128) % 256 - 128

/-- Embeds `fn signal(child, signal)` with an explicit `kill` oracle: when
the child's pid resolves, `kill` is invoked and its error propagates; when
`Child::id` returns `None`, the function succeeds without any delivery. -/
def signal (kill : Nat → Signal → Except Unit Unit) (child : Child) (sig : Signal) :
    Except Unit (List Effect) :=
  match child.id with
  | some pid =>
    match kill pid sig with
    | Except.ok _ => Except.ok [Effect.sendSignal pid sig]
    | Except.error e => Except.error e
  | none => Except.ok []

/-- The effect trace of `fn signal` in the environment where `kill` on a
resolvable pid succeeds (the assumption under which the handler's `?`
operators never fire). -/
def signalEff (child : Child) (sig : Signal) : List Effect :=
  match child.id with
  | some pid => [Effect.sendSignal pid sig]
  | none => []

/-- Embeds `async fn terminate(child)`: send SIGTERM (via `signal`), then
await the child's exit. -/
def terminate (child : Child) : Child × List Effect :=
  ({ child with exited := true }, signalEff child Signal.SIGTERM ++ [Effect.wait child.id])

/-- Embeds `fn update_play_time`: returns immediately when not in-game
(GameInfo absent); otherwise reads GameInfo and issues one
`database.add_play_time(path, play_time)` call.  `GameInfo::play_time` is
not under `src/`; the `addPlayTime` effect stands for it.  Modelled from the
spec: play time is the duration from GameInfo's `start_time` to now. -/
def update_play_time (ingame : Bool) : List Effect :=
  if ingame then [Effect.addPlayTime] else []

/-- Embeds `fn add_volume`: i32 addition (wrapping), clamp to [0,20], write
through to the platform volume. -/
def add_volume (s : AlliumD) (add : Int) : AlliumD × List Effect :=
  let v := clampI (wrap32 (s.volume + add)) 0 20
  ({ s with volume := v }, [Effect.setVolume v])

/-- Embeds `fn add_brightness`: `brightness as i8 + add` (i8 wrapping),
clamp to [0,100], cast back to u8 (identity on [0,100]), write through to
the platform brightness. -/
def add_brightness (s : AlliumD) (add : Int) : AlliumD × List Effect :=
  let b := clampI (wrap8 (wrap8 s.brightness + add)) 0 100
  ({ s with brightness := b }, [Effect.setBrightness b])

/-- The two chord-tracking statements at the top of `handle_key_event`:
`Pressed(Menu)` sets both flags; any event other than `Pressed(Menu)` and
`Released(Menu)` clears `is_menu_pressed_alone`. -/
def chordUpdate (s : AlliumD) (ev : KeyEvent) : AlliumD :=
  if ev = KeyEvent.Pressed Key.Menu then
    { s with is_menu_pressed := true, is_menu_pressed_alone := true }
  else if ev ≠ KeyEvent.Released Key.Menu then
    { s with is_menu_pressed_alone := false }
  else s

/-- The `KeyEvent::Autorepeat(Key::Power)` match arm: set the terminating
flag, save state, then (in-game only) resume main if a menu exists, SIGTERM
main and await its exit; finally record play time, spawn `sync` and exec
`poweroff`. -/
def powerOff (env : Env) (s : AlliumD) : AlliumD × List Effect :=
  let s := { s with is_terminating := true }
  let eff := [Effect.saveState]
  let eff := if env.ingame then
      eff ++ (if s.menu.isSome then signalEff s.main Signal.SIGCONT else [])
          ++ signalEff s.main Signal.SIGTERM ++ [Effect.wait s.main.id]
    else eff
  (s, eff ++ update_play_time env.ingame ++ [Effect.spawnSync, Effect.execPoweroff])

/-- The `KeyEvent::Released(Key::Menu)` match arm: clear `is_menu_pressed`;
when in-game and the chord stayed alone, either terminate the existing menu
child or SIGSTOP main and spawn the menu binary. -/
def releasedMenu (env : Env) (s : AlliumD) : AlliumD × List Effect :=
  let s := { s with is_menu_pressed := false }
  if env.ingame && s.is_menu_pressed_alone then
    let s := { s with is_menu_pressed_alone := false }
    match s.menu with
    | some menu =>
      let r := terminate menu
      ({ s with menu := some r.1 }, r.2)
    | none =>
      ({ s with menu := some env.newMenu },
       signalEff s.main Signal.SIGSTOP ++ [Effect.spawnMenu])
  else (s, [])

/-- Embeds `async fn handle_key_event`. -/
def handle_key_event (env : Env) (s0 : AlliumD) (ev : KeyEvent) : AlliumD × List Effect :=
  let s := chordUpdate s0 ev
  match ev with
  | KeyEvent.Pressed Key.VolDown | KeyEvent.Autorepeat Key.VolDown =>
    if s.is_menu_pressed then add_brightness s (-5) else add_volume s (-1)
  | KeyEvent.Pressed Key.VolUp | KeyEvent.Autorepeat Key.VolUp =>
    if s.is_menu_pressed then add_brightness s 5 else add_volume s 1
  | KeyEvent.Autorepeat Key.Power => powerOff env s
  | KeyEvent.Released Key.Menu => releasedMenu env s
  | _ => (s, [])

/-- The event loop's `menu_terminated` select branch: when the menu child
has exited, clear the menu slot and SIGCONT main. -/
def reapMenu (s : AlliumD) : AlliumD × List Effect :=
  match s.menu with
  | some c =>
    if c.exited then ({ s with menu := none }, signalEff s.main Signal.SIGCONT)
    else (s, [])
  | none => (s, [])

/-- One event-loop reaction to a key event: run the handler, then (as the
loop's next `select!` does) reap the menu child if it has terminated. -/
def processEvent (env : Env) (s : AlliumD) (ev : KeyEvent) : AlliumD × List Effect :=
  let r := handle_key_event env s ev
  let r2 := reapMenu r.1
  (r2.1, r.2 ++ r2.2)

/-- Process a key-event sequence through the event loop. -/
def processEvents (env : Env) (s : AlliumD) : List KeyEvent → AlliumD × List Effect
  | [] => (s, [])
  | ev :: rest =>
    let r := processEvent env s ev
    let r2 := processEvents env r.1 rest
    (r2.1, r.2 ++ r2.2)

/-- The event loop's `main.wait()` select branch: when not terminating,
record play time, delete GameInfo, respawn main; when terminating, do
nothing. -/
def on_main_exited (ingame : Bool) (newMain : Child) (s : AlliumD) : AlliumD × List Effect :=
  if s.is_terminating then (s, [])
  else ({ s with main := newMain },
        update_play_time ingame ++ [Effect.deleteGameInfo, Effect.spawnMain])

/-- The persisted settings snapshot: the only two fields serde does not
skip (`volume: i32`, `brightness: u8`). -/
structure Persisted where
  volume : Int
  brightness : Int
  deriving DecidableEq, Repr

/-- Embeds `AlliumD::new()`: fresh main child, no menu, flags cleared,
volume 0, brightness 50. -/
def AlliumD.new (newMain : Child) : AlliumD :=
  { main := newMain, menu := none, is_menu_pressed := false,
    is_menu_pressed_alone := false, is_terminating := false,
    volume := 0, brightness := 50 }

/-- The persisted snapshot `save` writes for a state (serde skips every
other field). -/
def persistOf (s : AlliumD) : Persisted :=
  { volume := s.volume, brightness := s.brightness }

/-- Embeds `AlliumD::load()`: the file system is `none` (state file absent)
or `some contents`; `parse` abstracts `serde_json::from_str`.  On a missing
file fall back to `new`; on contents that parse, the deserialized state
(skipped fields defaulted); on contents that fail to parse, remove the file
(the returned Bool) and fall back to `new`.  A parse failure is never
returned as an error. -/
def load (parse : String → Option Persisted) (newMain : Child) (file : Option String) :
    AlliumD × Bool :=
  match file with
  | some contents =>
    match parse contents with
    | some p => ({ AlliumD.new newMain with volume := p.volume, brightness := p.brightness },
                 false)
    | none => (AlliumD.new newMain, true)
  | none => (AlliumD.new newMain, false)

/-- Reachable daemon states: the fresh state of `new`, closed under key
events, menu-exit reaping, main-exit handling, and reloading a settings
file that was persisted from a reachable state (the round-trip
`parse (serialize s) = some (persistOf s)` is the settings round-trip the
spec records for serde). -/
inductive Reachable : AlliumD → Prop where
  | init (c : Child) : Reachable (AlliumD.new c)
  | key (env : Env) (ev : KeyEvent) {s : AlliumD} :
      Reachable s → Reachable (handle_key_event env s ev).1
  | reap {s : AlliumD} : Reachable s → Reachable (reapMenu s).1
  | mainExit (ingame : Bool) (nm : Child) {s : AlliumD} :
      Reachable s → Reachable (on_main_exited ingame nm s).1
  | reload (parse : String → Option Persisted) (nm : Child) (contents : String)
      {s : AlliumD} : Reachable s → parse contents = some (persistOf s) →
      Reachable (load parse nm (some contents)).1

theorem clampI_mem (x lo hi : Int) (h : lo ≤ hi) :
    lo ≤ clampI x lo hi ∧ clampI x lo hi ≤ hi := by
  unfold clampI; split_ifs <;> omega

/-- C3: for every integer delta, `add_volume` stores a volume in [0,20] and
`add_brightness` stores a brightness in [0,100]; with delta 0 and a stored
value already in range, the stored value is unchanged. -/
theorem C3_clamping (s : AlliumD) (d : Int) :
    (0 ≤ (add_volume s d).1.volume ∧ (add_volume s d).1.volume ≤ 20) ∧
    (0 ≤ (add_brightness s d).1.brightness ∧ (add_brightness s d).1.brightness ≤ 100) ∧
    (0 ≤ s.volume → s.volume ≤ 20 → (add_volume s 0).1.volume = s.volume) ∧
    (0 ≤ s.brightness → s.brightness ≤ 100 →
      (add_brightness s 0).1.brightness = s.brightness) := by
  simp only [add_volume, add_brightness]
  refine ⟨clampI_mem _ 0 20 (by omega), clampI_mem _ 0 100 (by omega), ?_, ?_⟩
  · intro h1 h2
    have hw : wrap32 (s.volume + 0) = s.volume := by unfold wrap32; omega
    rw [hw]
    unfold clampI; split_ifs <;> omega
  · intro h1 h2
    have h3 : wrap8 s.brightness = s.brightness := by unfold wrap8; omega
    rw [h3]
    have h4 : wrap8 (s.brightness + 0) = s.brightness := by unfold wrap8; omega
    rw [h4]
    unfold clampI; split_ifs <;> omega

/-- Witness for C3 at a concrete state (volume 10, brightness 50) and a
large delta. -/
theorem C3_clamping_witness :
    (0 ≤ (add_volume ⟨⟨some 1, false⟩, none, false, false, false, 10, 50⟩ 1000).1.volume ∧
      (add_volume ⟨⟨some 1, false⟩, none, false, false, false, 10, 50⟩ 1000).1.volume ≤ 20) ∧
    (add_volume ⟨⟨some 1, false⟩, none, false, false, false, 10, 50⟩ 0).1.volume = 10 ∧
    (add_brightness ⟨⟨some 1, false⟩, none, false, false, false, 10, 50⟩ 0).1.brightness
      = 50 := by
  obtain ⟨hv, -, h0, h1⟩ :=
    C3_clamping ⟨⟨some 1, false⟩, none, false, false, false, 10, 50⟩ 1000
  exact ⟨hv, h0 (by decide) (by decide), h1 (by decide) (by decide)⟩

/-- C4: loading a settings file whose bytes fail to parse removes the file
and returns the default state (volume 0, brightness 50) without an error;
loading with the file absent returns the same defaults. -/
theorem C4_load_crash_tolerance (parse : String → Option Persisted) (newMain : Child)
    (contents : String) (h : parse contents = none) :
    load parse newMain (some contents) = (AlliumD.new newMain, true) ∧
    load parse newMain none = (AlliumD.new newMain, false) ∧
    (AlliumD.new newMain).volume = 0 ∧ (AlliumD.new newMain).brightness = 50 := by
  refine ⟨?_, rfl, rfl, rfl⟩
  simp [load, h]

/-- Witness for C4 with a parser that rejects the concrete contents. -/
theorem C4_load_crash_tolerance_witness :
    load (fun _ => none) ⟨some 1, false⟩ (some "corrupt") =
      (AlliumD.new ⟨some 1, false⟩, true) ∧
    load (fun _ => none) ⟨some 1, false⟩ none = (AlliumD.new ⟨some 1, false⟩, false) ∧
    (AlliumD.new ⟨some 1, false⟩).volume = 0 ∧
    (AlliumD.new ⟨some 1, false⟩).brightness = 50 :=
  C4_load_crash_tolerance (fun _ => none) ⟨some 1, false⟩ "corrupt" rfl

/-- C8: signalling a child whose pid can no longer be resolved succeeds
without invoking `kill`, for every kill oracle and every signal. -/
theorem C8_signal_noop (kill : Nat → Signal → Except Unit Unit) (child : Child)
    (sig : Signal) (h : child.id = none) :
    signal kill child sig = Except.ok [] := by
  unfold signal
  rw [h]

/-- Witness for C8 with a kill oracle that always fails: no error and no
delivery occur. -/
theorem C8_signal_noop_witness :
    signal (fun _ _ => Except.error ()) ⟨none, false⟩ Signal.SIGTERM = Except.ok [] :=
  C8_signal_noop (fun _ _ => Except.error ()) ⟨none, false⟩ Signal.SIGTERM rfl

/-- C1: the chord [Press(Menu), Release(Menu)] while in-game with no menu
child spawns a menu child and SIGSTOPs main; while in-game with a live menu
child it terminates that child and (via the loop's reap) SIGCONTs main,
emptying the menu slot; while not in-game it spawns nothing and sends no
signal. -/
theorem C1_chord_toggle (env : Env) (s : AlliumD) (m : Nat)
    (hm : s.main.id = some m) (hfresh : env.newMenu.exited = false) :
    (env.ingame = true → s.menu = none →
      (processEvents env s [KeyEvent.Pressed Key.Menu, KeyEvent.Released Key.Menu]).1.menu
        = some env.newMenu ∧
      (processEvents env s [KeyEvent.Pressed Key.Menu, KeyEvent.Released Key.Menu]).2
        = [Effect.sendSignal m Signal.SIGSTOP, Effect.spawnMenu]) ∧
    (∀ c p, env.ingame = true → s.menu = some c → c.exited = false → c.id = some p →
      (processEvents env s [KeyEvent.Pressed Key.Menu, KeyEvent.Released Key.Menu]).1.menu
        = none ∧
      (processEvents env s [KeyEvent.Pressed Key.Menu, KeyEvent.Released Key.Menu]).2
        = [Effect.sendSignal p Signal.SIGTERM, Effect.wait (some p),
           Effect.sendSignal m Signal.SIGCONT]) ∧
    (env.ingame = false → s.menu = none →
      (processEvents env s [KeyEvent.Pressed Key.Menu, KeyEvent.Released Key.Menu]).1.menu
        = none ∧
      (processEvents env s [KeyEvent.Pressed Key.Menu, KeyEvent.Released Key.Menu]).2
        = []) := by
  obtain ⟨ig, nm⟩ := env
  refine ⟨?_, ?_, ?_⟩
  · intro hig hmenu
    subst hig
    simp_all [processEvents, processEvent, handle_key_event, chordUpdate, releasedMenu,
      reapMenu, terminate, signalEff]
  · intro c p hig hmenu hex hp
    subst hig
    simp_all [processEvents, processEvent, handle_key_event, chordUpdate, releasedMenu,
      reapMenu, terminate, signalEff]
  · intro hig hmenu
    subst hig
    simp_all [processEvents, processEvent, handle_key_event, chordUpdate, releasedMenu,
      reapMenu, terminate, signalEff]

/-- Witness for C1 at a concrete in-game state with no menu child. -/
theorem C1_chord_toggle_witness :
    (processEvents ⟨true, ⟨some 9, false⟩⟩
        ⟨⟨some 3, false⟩, none, false, false, false, 0, 50⟩
        [KeyEvent.Pressed Key.Menu, KeyEvent.Released Key.Menu]).1.menu
      = some ⟨some 9, false⟩ ∧
    (processEvents ⟨true, ⟨some 9, false⟩⟩
        ⟨⟨some 3, false⟩, none, false, false, false, 0, 50⟩
        [KeyEvent.Pressed Key.Menu, KeyEvent.Released Key.Menu]).2
      = [Effect.sendSignal 3 Signal.SIGSTOP, Effect.spawnMenu] :=
  (C1_chord_toggle ⟨true, ⟨some 9, false⟩⟩
    ⟨⟨some 3, false⟩, none, false, false, false, 0, 50⟩ 3 rfl rfl).1 rfl rfl

/-- C7: the chord [Press(Menu), Press(VolUp), Release(Menu)] while in-game
does not toggle the menu: the menu slot stays empty, no signal is sent, and
the VolUp press adjusts brightness by +5 while the volume is untouched. -/
theorem C7_chord_override (env : Env) (s : AlliumD)
    (hin : env.ingame = true) (hmenu : s.menu = none)
    (hb0 : 0 ≤ s.brightness) (hb : s.brightness ≤ 95) :
    (processEvents env s [KeyEvent.Pressed Key.Menu, KeyEvent.Pressed Key.VolUp,
        KeyEvent.Released Key.Menu]).1.menu = none ∧
    (processEvents env s [KeyEvent.Pressed Key.Menu, KeyEvent.Pressed Key.VolUp,
        KeyEvent.Released Key.Menu]).1.volume = s.volume ∧
    (processEvents env s [KeyEvent.Pressed Key.Menu, KeyEvent.Pressed Key.VolUp,
        KeyEvent.Released Key.Menu]).1.brightness = s.brightness + 5 ∧
    (processEvents env s [KeyEvent.Pressed Key.Menu, KeyEvent.Pressed Key.VolUp,
        KeyEvent.Released Key.Menu]).2 = [Effect.setBrightness (s.brightness + 5)] := by
  obtain ⟨ig, nm⟩ := env
  subst hin
  have h1 : wrap8 s.brightness = s.brightness := by unfold wrap8; omega
  have h2 : wrap8 (s.brightness + 5) = s.brightness + 5 := by unfold wrap8; omega
  have h3 : clampI (s.brightness + 5) 0 100 = s.brightness + 5 := by
    unfold clampI; split_ifs <;> omega
  simp_all [processEvents, processEvent, handle_key_event, chordUpdate, releasedMenu,
    reapMenu, add_brightness, signalEff]

/-- Witness for C7 at a concrete in-game state with brightness 50. -/
theorem C7_chord_override_witness :
    (processEvents ⟨true, ⟨some 9, false⟩⟩
        ⟨⟨some 3, false⟩, none, false, false, false, 7, 50⟩
        [KeyEvent.Pressed Key.Menu, KeyEvent.Pressed Key.VolUp,
         KeyEvent.Released Key.Menu]).1.menu = none ∧
    (processEvents ⟨true, ⟨some 9, false⟩⟩
        ⟨⟨some 3, false⟩, none, false, false, false, 7, 50⟩
        [KeyEvent.Pressed Key.Menu, KeyEvent.Pressed Key.VolUp,
         KeyEvent.Released Key.Menu]).1.brightness = 55 := by
  obtain ⟨hmenu, -, hbright, -⟩ :=
    C7_chord_override ⟨true, ⟨some 9, false⟩⟩
      ⟨⟨some 3, false⟩, none, false, false, false, 7, 50⟩ rfl rfl (by decide) (by decide)
  exact ⟨hmenu, hbright⟩

/-- C9: every key event other than Pressed(Menu) and Released(Menu) clears
`is_menu_pressed_alone`; hence a Menu hold interrupted by a Menu autorepeat
event is not classified as a menu toggle on release. -/
theorem C9_alone_reset (env : Env) (s : AlliumD) :
    (∀ ev : KeyEvent, ev ≠ KeyEvent.Pressed Key.Menu → ev ≠ KeyEvent.Released Key.Menu →
      (handle_key_event env s ev).1.is_menu_pressed_alone = false) ∧
    (s.menu = none →
      (processEvents env s [KeyEvent.Pressed Key.Menu, KeyEvent.Autorepeat Key.Menu,
        KeyEvent.Released Key.Menu]).1.menu = none ∧
      (processEvents env s [KeyEvent.Pressed Key.Menu, KeyEvent.Autorepeat Key.Menu,
        KeyEvent.Released Key.Menu]).2 = []) := by
  constructor
  · intro ev h1 h2
    cases hp : s.is_menu_pressed <;>
      rcases ev with k|k|k <;> cases k <;>
        simp_all [handle_key_event, chordUpdate, add_volume, add_brightness, powerOff,
          releasedMenu, terminate, signalEff]
  · intro hmenu
    simp_all [processEvents, processEvent, handle_key_event, chordUpdate, releasedMenu,
      reapMenu, signalEff]

/-- Witness for C9 at a concrete state and the Autorepeat(Menu) event. -/
theorem C9_alone_reset_witness :
    (handle_key_event ⟨true, ⟨some 9, false⟩⟩
        ⟨⟨some 3, false⟩, none, true, true, false, 0, 50⟩
        (KeyEvent.Autorepeat Key.Menu)).1.is_menu_pressed_alone = false ∧
    (processEvents ⟨true, ⟨some 9, false⟩⟩
        ⟨⟨some 3, false⟩, none, true, true, false, 0, 50⟩
        [KeyEvent.Pressed Key.Menu, KeyEvent.Autorepeat Key.Menu,
         KeyEvent.Released Key.Menu]).2 = [] := by
  obtain ⟨h1, h2⟩ :=
    C9_alone_reset ⟨true, ⟨some 9, false⟩⟩ ⟨⟨some 3, false⟩, none, true, true, false, 0, 50⟩
  exact ⟨h1 (KeyEvent.Autorepeat Key.Menu) (by decide) (by decide), (h2 rfl).2⟩

/-- C10: releasing Menu while not in-game clears `is_menu_pressed` but
leaves `is_menu_pressed_alone` set; a later Released(Menu) while in-game
then toggles the menu even though no Pressed(Menu) occurred in between. -/
theorem C10_stale_alone (envOut envIn : Env) (s : AlliumD) (m : Nat)
    (hout : envOut.ingame = false) (hin : envIn.ingame = true)
    (halone : s.is_menu_pressed_alone = true) (hmenu : s.menu = none)
    (hm : s.main.id = some m) (hfresh : envIn.newMenu.exited = false) :
    (processEvent envOut s (KeyEvent.Released Key.Menu)).1.is_menu_pressed = false ∧
    (processEvent envOut s (KeyEvent.Released Key.Menu)).1.is_menu_pressed_alone = true ∧
    (processEvent envIn (processEvent envOut s (KeyEvent.Released Key.Menu)).1
        (KeyEvent.Released Key.Menu)).1.menu = some envIn.newMenu ∧
    (processEvent envIn (processEvent envOut s (KeyEvent.Released Key.Menu)).1
        (KeyEvent.Released Key.Menu)).2
      = [Effect.sendSignal m Signal.SIGSTOP, Effect.spawnMenu] := by
  obtain ⟨igOut, nmOut⟩ := envOut
  obtain ⟨igIn, nmIn⟩ := envIn
  subst hout hin
  simp_all [processEvent, handle_key_event, chordUpdate, releasedMenu, reapMenu, signalEff]

/-- Witness for C10 at a concrete state whose alone flag is stale. -/
theorem C10_stale_alone_witness :
    (processEvent ⟨true, ⟨some 9, false⟩⟩
        (processEvent ⟨false, ⟨some 9, false⟩⟩
          ⟨⟨some 3, false⟩, none, false, true, false, 0, 50⟩
          (KeyEvent.Released Key.Menu)).1
        (KeyEvent.Released Key.Menu)).1.menu = some ⟨some 9, false⟩ ∧
    (processEvent ⟨true, ⟨some 9, false⟩⟩
        (processEvent ⟨false, ⟨some 9, false⟩⟩
          ⟨⟨some 3, false⟩, none, false, true, false, 0, 50⟩
          (KeyEvent.Released Key.Menu)).1
        (KeyEvent.Released Key.Menu)).2
      = [Effect.sendSignal 3 Signal.SIGSTOP, Effect.spawnMenu] := by
  obtain ⟨-, -, h3, h4⟩ :=
    C10_stale_alone ⟨false, ⟨some 9, false⟩⟩ ⟨true, ⟨some 9, false⟩⟩
      ⟨⟨some 3, false⟩, none, false, true, false, 0, 50⟩ 3 rfl rfl rfl rfl rfl rfl
  exact ⟨h3, h4⟩

/-- C5: the power-key autorepeat sets the terminating flag and the effect
trace starts with the state persist; in-game it then SIGCONTs main when a
menu child exists, SIGTERMs main, awaits its exit, records play time, spawns
the sync command and execs poweroff; out of game the signalling block and
play-time call are skipped. -/
theorem C5_power_off (env : Env) (s : AlliumD) (m : Nat) (hm : s.main.id = some m) :
    (handle_key_event env s (KeyEvent.Autorepeat Key.Power)).1.is_terminating = true ∧
    (env.ingame = true →
      (handle_key_event env s (KeyEvent.Autorepeat Key.Power)).2
        = Effect.saveState ::
          ((if s.menu.isSome then [Effect.sendSignal m Signal.SIGCONT] else []) ++
           [Effect.sendSignal m Signal.SIGTERM, Effect.wait (some m), Effect.addPlayTime,
            Effect.spawnSync, Effect.execPoweroff])) ∧
    (env.ingame = false →
      (handle_key_event env s (KeyEvent.Autorepeat Key.Power)).2
        = [Effect.saveState, Effect.spawnSync, Effect.execPoweroff]) := by
  obtain ⟨ig, nm⟩ := env
  refine ⟨?_, ?_, ?_⟩
  · simp [handle_key_event, chordUpdate, powerOff]
  · intro hig
    subst hig
    cases hmenu : s.menu <;>
      simp_all [handle_key_event, chordUpdate, powerOff, update_play_time, signalEff]
  · intro hig
    subst hig
    simp_all [handle_key_event, chordUpdate, powerOff, update_play_time, signalEff]

/-- Witness for C5 at a concrete in-game state with a menu child present. -/
theorem C5_power_off_witness :
    (handle_key_event ⟨true, ⟨some 9, false⟩⟩
        ⟨⟨some 3, false⟩, some ⟨some 5, false⟩, false, false, false, 0, 50⟩
        (KeyEvent.Autorepeat Key.Power)).1.is_terminating = true ∧
    (handle_key_event ⟨true, ⟨some 9, false⟩⟩
        ⟨⟨some 3, false⟩, some ⟨some 5, false⟩, false, false, false, 0, 50⟩
        (KeyEvent.Autorepeat Key.Power)).2
      = [Effect.saveState, Effect.sendSignal 3 Signal.SIGCONT,
         Effect.sendSignal 3 Signal.SIGTERM, Effect.wait (some 3), Effect.addPlayTime,
         Effect.spawnSync, Effect.execPoweroff] := by
  obtain ⟨h1, h2, -⟩ :=
    C5_power_off ⟨true, ⟨some 9, false⟩⟩
      ⟨⟨some 3, false⟩, some ⟨some 5, false⟩, false, false, false, 0, 50⟩ 3 rfl
  exact ⟨h1, by simpa using h2 rfl⟩

/-- C2 as stated is false: when main exits with the terminating flag false
but no GameInfo file present (main was the launcher), `update_play_time`
returns early, so zero `add_play_time` calls occur, not exactly one. -/
theorem C2_counterexample :
    ¬ ((on_main_exited false ⟨some 7, false⟩
          ⟨⟨some 3, false⟩, none, false, false, false, 0, 50⟩).2.count Effect.addPlayTime
        = 1) := by decide

/-- C2 amended: when main exits with the terminating flag false, exactly one
respawn and one GameInfo deletion occur, and exactly one add_play_time call
occurs when the GameInfo file exists (zero when it does not); with the flag
true, nothing happens. -/
theorem C2_respawn_once (ingame : Bool) (nm : Child) (s : AlliumD) :
    (s.is_terminating = false →
      (on_main_exited ingame nm s).2.count Effect.spawnMain = 1 ∧
      (on_main_exited ingame nm s).2.count Effect.deleteGameInfo = 1 ∧
      (on_main_exited ingame nm s).2.count Effect.addPlayTime
        = (if ingame then 1 else 0) ∧
      (on_main_exited ingame nm s).1.main = nm) ∧
    (s.is_terminating = true → on_main_exited ingame nm s = (s, [])) := by
  constructor
  · intro h
    cases ingame <;> simp_all [on_main_exited, update_play_time, List.count_cons]
  · intro h
    simp [on_main_exited, h]

/-- Witness for C2 amended at a concrete in-game, non-terminating state. -/
theorem C2_respawn_once_witness :
    (on_main_exited true ⟨some 7, false⟩
        ⟨⟨some 3, false⟩, none, false, false, false, 0, 50⟩).2.count Effect.spawnMain = 1 ∧
    (on_main_exited true ⟨some 7, false⟩
        ⟨⟨some 3, false⟩, none, false, false, false, 0, 50⟩).2.count Effect.addPlayTime
      = 1 := by
  obtain ⟨h, -⟩ :=
    C2_respawn_once true ⟨some 7, false⟩ ⟨⟨some 3, false⟩, none, false, false, false, 0, 50⟩
  obtain ⟨h1, -, h3, -⟩ := h rfl
  exact ⟨h1, h3⟩

/-- The data-model invariant on the persisted settings fields. -/
def stateInv (s : AlliumD) : Prop :=
  0 ≤ s.volume ∧ s.volume ≤ 20 ∧ 0 ≤ s.brightness ∧ s.brightness ≤ 100

theorem stateInv_handle_key_event (env : Env) (s : AlliumD) (ev : KeyEvent)
    (h : stateInv s) : stateInv (handle_key_event env s ev).1 := by
  obtain ⟨h1, h2, h3, h4⟩ := h
  have hv := fun x => clampI_mem x 0 20 (by omega)
  have hb := fun x => clampI_mem x 0 100 (by omega)
  cases hp : s.is_menu_pressed <;>
    rcases ev with k|k|k <;> cases k <;>
      cases hmenu : s.menu <;>
        simp_all [handle_key_event, chordUpdate, stateInv, add_volume, add_brightness,
          powerOff, releasedMenu, terminate, signalEff] <;>
        first
          | exact ⟨(hv _).1, (hv _).2, h3, h4⟩
          | (split <;> simp_all)

theorem stateInv_reapMenu (s : AlliumD) (h : stateInv s) : stateInv (reapMenu s).1 := by
  obtain ⟨h1, h2, h3, h4⟩ := h
  cases hmenu : s.menu
  · simp_all [reapMenu, stateInv]
  · simp_all [reapMenu, stateInv]
    split <;> simp_all

theorem stateInv_on_main_exited (ingame : Bool) (nm : Child) (s : AlliumD)
    (h : stateInv s) : stateInv (on_main_exited ingame nm s).1 := by
  obtain ⟨h1, h2, h3, h4⟩ := h
  unfold on_main_exited
  split <;> simp_all [stateInv]

/-- C6: every reachable daemon state, including a state reloaded from a
settings file that was persisted from a reachable state, has volume in
[0,20] and brightness in [0,100]. -/
theorem C6_invariant (s : AlliumD) (h : Reachable s) : stateInv s := by
  induction h with
  | init c => simp [stateInv, AlliumD.new]
  | key env ev hs ih => exact stateInv_handle_key_event env _ ev ih
  | reap hs ih => exact stateInv_reapMenu _ ih
  | mainExit ingame nm hs ih => exact stateInv_on_main_exited ingame nm _ ih
  | reload parse nm contents hs hp ih =>
    obtain ⟨h1, h2, h3, h4⟩ := ih
    simp_all [load, persistOf, stateInv, AlliumD.new]

/-- Witness for C6: the invariant at the fresh state and at a state reloaded
from a persisted settings file. -/
theorem C6_invariant_witness :
    stateInv (AlliumD.new ⟨some 3, false⟩) ∧
    stateInv (load (fun _ => some ⟨0, 50⟩) ⟨some 4, false⟩ (some "state")).1 :=
  ⟨C6_invariant (AlliumD.new ⟨some 3, false⟩) (Reachable.init ⟨some 3, false⟩),
   C6_invariant _ (Reachable.reload (fun _ => some ⟨0, 50⟩) ⟨some 4, false⟩ "state"
      (Reachable.init ⟨some 3, false⟩) rfl)⟩
